import Mathlib

/-!
Shallow embedding of `src/components/tabs/sell-tab-content/sell.process.tsx`
(the `SellTabContentProcess` React component of DFXswiss/ln-exchange).

Modelling choices:
* JavaScript numbers are modelled as rationals (`ℚ`); `NaN` is modelled by
  `none` in `Option ℚ` where the code can produce it (`Number` of a
  non-numeric string, `Number(undefined)`).
* Nullable / possibly-undefined values are `Option`s; JS truthiness of a
  string-valued field is `strTruthy` (`undefined` and `""` are falsy).
* The component's `useState` cells form the record `ScreenState`; each React
  effect of the source becomes a state-transition function, and the whole
  screen is the event-step function `step` folded over an event trace by
  `run` (the sequential semantics: one effect, together with the settling of
  the fetch it issues, runs atomically — the source has no request
  cancellation, and the claims under study are about this per-trigger
  behaviour).
* External services (`isAllowedToSell` from the KYC helper hook,
  `toSymbol` from the fiat hook, the wallet `address`) are parameters,
  collected in `Env`; the outcome of the `receiveFor` quote request is the
  `FetchOutcome` input of the quote-refresh step.
-/

/-- Fiat currency metadata (the `Fiat` type of the API client); this
component only reads its `name`. -/
structure Fiat where
  name : String
  deriving DecidableEq

/-- Crypto asset metadata; this component only reads its `name`. -/
structure Asset where
  name : String
  deriving DecidableEq

/-- Bank account record; fields read by this component. -/
structure BankAccount where
  id : Nat
  iban : String
  preferredCurrency : Option Fiat
  deriving DecidableEq

/-- The quote returned by the sell service (the `Sell` type of the API
client); `paymentRequest` is nullable in the source
(`sell.paymentRequest ?? ''`). -/
structure Sell where
  estimatedAmount : ℚ
  fee : ℚ
  minFeeTarget : ℚ
  minVolume : ℚ
  paymentRequest : Option String
  deriving DecidableEq

/-- The form watch `data` (`DeepPartial<FormData>` in the source): every
field may still be undefined. -/
structure FormData where
  bankAccount : Option BankAccount
  asset : Option Asset
  currency : Option Fiat
  amount : Option String
  deriving DecidableEq

/-- `PaymentInformation` of the source: display strings derived from a
quote. -/
structure PaymentInformation where
  estimatedAmount : String
  fee : String
  minFee : Option String
  paymentRequest : String
  deriving DecidableEq

/-- JS truthiness of a possibly-undefined string (`undefined` and `""` are
falsy). -/
def strTruthy (a : Option String) : Bool :=
  match a with
  | some s => !(s == "")
  | none => false

/-- Digit-list accumulator: `some` of the denoted natural number when every
character is a decimal digit, else `none`. -/
def digitsToNat (l : List Char) : Option Nat :=
  l.foldl
    (fun acc c =>
      match acc with
      | none => none
      | some n => if c.isDigit then some (n * 10 + (c.toNat - 48)) else none)
    (some 0)

/-- Value of a (sign-free) decimal numeral `int.frac`; `none` when the
character list is not such a numeral. -/
def decimalValue (l : List Char) : Option ℚ :=
  let p := l.span (fun c => !(c == '.'))
  match p.2 with
  | [] =>
    if p.1.isEmpty then none
    else (digitsToNat p.1).map (fun n => (n : ℚ))
  | _ :: fracPart =>
    if fracPart.contains '.' then none
    else if p.1.isEmpty && fracPart.isEmpty then none
    else
      match digitsToNat p.1, digitsToNat fracPart with
      | some i, some f => some ((i : ℚ) + (f : ℚ) / 10 ^ fracPart.length)
      | _, _ => none

/-- Model of the JavaScript `Number(string)` conversion on the inputs this
form produces (decimal numerals, optionally signed; `""` is 0); `none`
stands for `NaN`. -/
def jsNumber (s : String) : Option ℚ :=
  match s.data with
  | [] => some 0
  | '-' :: rest => (decimalValue rest).map (fun q => -q)
  | '+' :: rest => decimalValue rest
  | l => decimalValue l

/-- `Number` of a possibly-undefined string (`Number(undefined) = NaN`). -/
def jsNumberOpt (a : Option String) : Option ℚ :=
  match a with
  | some s => jsNumber s
  | none => none

/-- The test `Number(x) > 0` of the source (false on `NaN`). -/
def jsGtZero (a : Option String) : Bool :=
  match jsNumberOpt a with
  | some q => decide (0 < q)
  | none => false

/-- Least `k < 40` with `den ∣ 10 ^ k` (enough for every denominator a
decimal numeral can produce). -/
def pow10Exp (den : Nat) : Option Nat :=
  (List.range 40).find? (fun k => 10 ^ k % den == 0)

/-- Left-pad a digit string with zeros to length `k`. -/
def padZeros (s : String) (k : Nat) : String :=
  String.mk (List.replicate (k - s.length) '0') ++ s

/-- Model of JS number-to-string conversion (template-literal
interpolation) for the finite decimals this screen handles: integers print
with no point, other decimal fractions with their exact expansion. -/
def jsToString (q : ℚ) : String :=
  let sign := if q.num < 0 then "-" else ""
  let n := q.num.natAbs
  match pow10Exp q.den with
  | some 0 => sign ++ toString n
  | some (k + 1) =>
    let m := 10 ^ (k + 1)
    let scaled := n * (m / q.den)
    sign ++ toString (scaled / m) ++ "." ++ padZeros (toString (scaled % m)) (k + 1)
  | none => sign ++ toString n ++ "/" ++ toString q.den

/-- Modelled from the spec: `Utils.formatAmountCrypto` lives in
`src/utils.ts`, which is not part of the provided sources. The spec's
scenario ("Entered amount is below minimum deposit of 200 BTC") renders the
minimum 200 as "200", so it is modelled as the plain decimal rendering of
the number. -/
def formatAmountCrypto (q : ℚ) : String :=
  jsToString q

/-- `validateData` of the source (lines 139–143): returns the watched form
data itself when the amount parses positive and all other fields are
present, else `undefined`. -/
def validateData (data : Option FormData) : Option FormData :=
  match data with
  | some d =>
    if jsGtZero d.amount && d.asset.isSome && d.bankAccount.isSome && d.currency.isSome
    then some d
    else none
  | none => none

/-- `checkForMinDeposit` of the source (lines 127–137). It both returns the
(possibly discarded) quote and assigns `customAmountError`; the second
component is the value assigned to that cell (assigned in both branches). -/
def checkForMinDeposit (sell : Sell) (amount : ℚ) (currency : String) :
    Option Sell × Option String :=
  if sell.minVolume > amount then
    (none,
      some ("Entered amount is below minimum deposit of "
        ++ formatAmountCrypto sell.minVolume ++ " " ++ currency))
  else
    (some sell, none)

/-- `toPaymentInformation` of the source (lines 162–171). `dataCurrency` is
`data?.currency`, the currently watched currency; `toSymbol` is the fiat
hook's symbol service. -/
def toPaymentInformation (toSymbol : Fiat → String) (dataCurrency : Option Fiat)
    (sell : Option Sell) : Option PaymentInformation :=
  match sell with
  | none => none
  | some sell =>
    some
      { estimatedAmount :=
          "≈ " ++ jsToString sell.estimatedAmount ++ " "
            ++ ((dataCurrency.map Fiat.name).getD "") ++ " (incl. DFX fees)"
        fee := jsToString sell.fee ++ " %"
        minFee :=
          match dataCurrency with
          | some c =>
            if sell.minFeeTarget > 0 then
              some (jsToString sell.minFeeTarget ++ toSymbol c)
            else none
          | none => none
        paymentRequest := sell.paymentRequest.getD "" }

/-- The externally supplied services the component consumes: the KYC
helper's `isAllowedToSell` (its argument is `Number(value?.estimatedAmount)`,
so `none` stands for the `NaN` it receives when the quote was discarded),
the fiat hook's `toSymbol`, and the wallet context's `address`. -/
structure Env where
  isAllowedToSell : Option ℚ → Bool
  toSymbol : Fiat → String
  address : Option String

/-- The component's mutable cells: the react-hook-form fields (`form`), the
debounced snapshot the quote-refresh effect last ran on (`debounced`), and
the `useState` cells of lines 58–63. -/
structure ScreenState where
  form : FormData
  debounced : Option FormData
  customAmountError : Option String
  isLoading : Bool
  isCompleting : Bool
  isCompleted : Bool
  kycRequired : Bool
  paymentInfo : Option PaymentInformation
  deriving DecidableEq

/-- The `useEffect` on `[enteredAmount]` (lines 89–94): when the amount
field is falsy, clear the amount-level error and the KYC flag. Applied
after every event that writes the amount field. -/
def amountClearEffect (s : ScreenState) : ScreenState :=
  if strTruthy s.form.amount then s
  else { s with customAmountError := none, kycRequired := false }

/-- The `useEffect` on `[asset]` (lines 77–82): on an external `asset` prop
change, overwrite the asset field only when the new prop value is truthy
(`asset && setValue('asset', asset)`), reset the amount to `''`, and clear
the completing/completed flags; the amount write triggers
`amountClearEffect`. -/
def assetEffect (a : Option Asset) (s : ScreenState) : ScreenState :=
  amountClearEffect
    { s with
      form :=
        { s.form with
          asset := if a.isSome then a else s.form.asset
          amount := some "" }
      isCompleting := false
      isCompleted := false }

/-- The `useEffect` on `[selectedBankAccount]` (lines 84–87): when the
selected account declares a preferred currency, copy it into the currency
field. -/
def bankAccountEffect (s : ScreenState) : ScreenState :=
  match s.form.bankAccount with
  | some b =>
    match b.preferredCurrency with
    | some c => { s with form := { s.form with currency := some c } }
    | none => s
  | none => s

/-- Outcome of the `receiveFor` quote request: a quote, or a rejection
carrying an `ApiError` (status code and message). -/
inductive FetchOutcome where
  | ok (sell : Sell)
  | err (statusCode : Nat) (message : String)
  deriving DecidableEq

/-- The quote-refresh `useEffect` on `[validatedData]` (lines 96–125),
together with the settling of the request it issues (`outcome`). The
debounced snapshot is first updated to the current form data; when it does
not validate, only `paymentInfo` is cleared and no request is issued.
Otherwise the promise chain runs: `checkForMinDeposit` assigns the error
cell and possibly discards the quote, `setKycRequired(dataValid &&
!isAllowedToSell(Number(value?.estimatedAmount)))` runs on the (possibly
discarded) quote, the projection is stored, and `finally` clears the
loading flag. On rejection only the recognised (400, 'Ident data
incomplete') error sets the KYC flag; every other error is absorbed. -/
def quoteRefresh (env : Env) (outcome : FetchOutcome) (s0 : ScreenState) : ScreenState :=
  let s := { s0 with debounced := some s0.form }
  match validateData (some s0.form) with
  | none => { s with paymentInfo := none }
  | some vd =>
    let amount := (jsNumberOpt vd.amount).getD 0
    match outcome with
    | .ok sell =>
      let res := checkForMinDeposit sell amount ((vd.asset.map Asset.name).getD "")
      { s with
        customAmountError := res.2
        kycRequired := !env.isAllowedToSell (res.1.map Sell.estimatedAmount)
        paymentInfo := toPaymentInformation env.toSymbol s0.form.currency res.1
        isLoading := false }
    | .err code msg =>
      if code == 400 && msg == "Ident data incomplete" then
        { s with kycRequired := true, isLoading := false }
      else
        { s with isLoading := false }

/-- The calls `handleNext` makes to external capabilities, in order. -/
inductive SubmitAction where
  | accountUpdate
  | paySend
  deriving DecidableEq

/-- `handleNext` of the source (lines 153–160), with the settling of the
two awaited promises as inputs: `updateOk` is whether `updateAccount`
resolves, `sendOk` whether `sendPayment` resolves. Returns the new state
and the list of external calls made. When `updateAccount` rejects, the
async function aborts after `setIsCompleting(true)`; when `sendPayment`
settles, `.then` sets the completed flag only on resolution and `.finally`
clears the completing flag either way. -/
def handleNext (env : Env) (updateOk sendOk : Bool) (s : ScreenState) :
    ScreenState × List SubmitAction :=
  match validateData s.debounced with
  | none => (s, [])
  | some vd =>
    if !strTruthy vd.amount then (s, [])
    else if vd.asset.isNone then (s, [])
    else if !strTruthy env.address then (s, [])
    else
      match s.paymentInfo with
      | none => (s, [])
      | some _ =>
        let s1 := { s with isCompleting := true }
        if !updateOk then (s1, [SubmitAction.accountUpdate])
        else if sendOk then
          ({ s1 with isCompleted := true, isCompleting := false },
            [SubmitAction.accountUpdate, SubmitAction.paySend])
        else
          ({ s1 with isCompleting := false },
            [SubmitAction.accountUpdate, SubmitAction.paySend])

/-- The events the screen reacts to: an external `asset` prop change, the
user editing a form field, the debounced snapshot arriving (with the
outcome of the quote request it triggers), and the user pressing the
submit button. -/
inductive Event where
  | assetProp (a : Option Asset)
  | setBankAccount (b : Option BankAccount)
  | setCurrency (c : Option Fiat)
  | setAmount (v : String)
  | debounce (outcome : FetchOutcome)
  | next (updateOk sendOk : Bool)

/-- One event step of the screen: the field write plus the effects it
triggers, or the corresponding handler. -/
def step (env : Env) (s : ScreenState) : Event → ScreenState
  | .assetProp a => assetEffect a s
  | .setBankAccount b => bankAccountEffect { s with form := { s.form with bankAccount := b } }
  | .setCurrency c => { s with form := { s.form with currency := c } }
  | .setAmount v => amountClearEffect { s with form := { s.form with amount := some v } }
  | .debounce outcome => quoteRefresh env outcome s
  | .next u k => (handleNext env u k s).1

/-- The state at mount, before any effect has run: `useForm` defaults the
asset field to the prop, every other cell starts empty / false. -/
def initState (assetProp : Option Asset) : ScreenState :=
  { form := { bankAccount := none, asset := assetProp, currency := none, amount := none }
    debounced := none
    customAmountError := none
    isLoading := false
    isCompleting := false
    isCompleted := false
    kycRequired := false
    paymentInfo := none }

/-- Fold a trace of events over the step function. -/
def run (env : Env) (s : ScreenState) (es : List Event) : ScreenState :=
  es.foldl (step env) s

/-- Concrete fiat for scenarios. -/
def eur : Fiat := { name := "EUR" }

/-- Concrete asset for scenarios. -/
def btc : Asset := { name := "BTC" }

/-- Concrete bank account for scenarios. -/
def acct : BankAccount :=
  { id := 1, iban := "DE89370400440532013000", preferredCurrency := none }

/-- The quote of the spec's end-to-end scenario. -/
def quote95 : Sell :=
  { estimatedAmount := 95, fee := 2, minFeeTarget := 0, minVolume := 10,
    paymentRequest := some "pay:xyz" }

/-- The same quote but with a minimum volume above the entered amount. -/
def quoteHighMin : Sell :=
  { estimatedAmount := 95, fee := 2, minFeeTarget := 0, minVolume := 200,
    paymentRequest := some "pay:xyz" }

/-- Environment whose eligibility check always passes. -/
def envAllow : Env :=
  { isAllowedToSell := fun _ => true, toSymbol := fun _ => "E", address := some "wallet-1" }

/-- Environment whose eligibility check always fails. -/
def envDeny : Env :=
  { isAllowedToSell := fun _ => false, toSymbol := fun _ => "E", address := some "wallet-1" }

/-- Event prefix that fills the whole form: mount asset effect, bank
account, currency, amount 100. -/
def fillTrace : List Event :=
  [.assetProp (some btc), .setBankAccount (some acct), .setCurrency (some eur),
    .setAmount "100"]

/-- The form data `fillTrace` produces (and the validated snapshot of the
scenarios). -/
def formFull : FormData :=
  { bankAccount := some acct, asset := some btc, currency := some eur,
    amount := some "100" }

/-- The screen state after running `fillTrace` from the mount state. -/
def filledState : ScreenState := run envAllow (initState (some btc)) fillTrace

/-- The payment information the scenario quote projects to. -/
def piFull : PaymentInformation :=
  { estimatedAmount := "≈ 95 EUR (incl. DFX fees)", fee := "2 %",
    minFee := none, paymentRequest := "pay:xyz" }

/-- A screen state ready for submission: validated debounced data and
stored payment information. -/
def readyState : ScreenState :=
  { form := formFull
    debounced := some formFull
    customAmountError := none
    isLoading := false
    isCompleting := false
    isCompleted := false
    kycRequired := false
    paymentInfo := some piFull }

/-- A screen state whose amount field is non-empty but whose form no longer
validates (the currency selection is cleared). -/
def invalidAmountState : ScreenState :=
  { form := { formFull with currency := none }
    debounced := some formFull
    customAmountError := some "stale error"
    isLoading := false
    isCompleting := false
    isCompleted := false
    kycRequired := true
    paymentInfo := none }

/-- The state invariant behind claim C1, weakened to what the code
maintains: whenever payment information is stored, the debounced snapshot
validates and no minimum-deposit error is recorded. (The KYC flag is not
part of the invariant: the code keeps the payment information stored while
`kycRequired` is set and merely suppresses its rendering.) -/
def piInv (s : ScreenState) : Prop :=
  s.paymentInfo ≠ none →
    validateData s.debounced ≠ none ∧ s.customAmountError = none

/-- C8: with the currency named EUR and the surviving quote
{estimatedAmount 95, fee 2, minFeeTarget 0, paymentRequest "pay:xyz"}, the
projection to PaymentInformation yields exactly the display record of the
spec's scenario, with `minFee` empty; and in general `minFee` is populated
only when the quote's `minFeeTarget` is positive. -/
theorem C8_projection :
    toPaymentInformation envAllow.toSymbol (some eur) (some quote95) =
      some { estimatedAmount := "≈ 95 EUR (incl. DFX fees)", fee := "2 %",
             minFee := none, paymentRequest := "pay:xyz" } ∧
    ∀ (ts : Fiat → String) (c : Option Fiat) (sell : Sell) (pinfo : PaymentInformation),
      toPaymentInformation ts c (some sell) = some pinfo →
      pinfo.minFee ≠ none → sell.minFeeTarget > 0 := by
  constructor
  · decide
  · intro ts c sell pinfo h hm
    simp only [toPaymentInformation, Option.some.injEq] at h
    cases c with
    | none =>
      rw [← h] at hm
      exact absurd rfl hm
    | some cc =>
      rw [← h] at hm
      by_cases hgt : sell.minFeeTarget > 0
      · exact hgt
      · refine absurd ?_ hm
        simp [hgt]

/-- C8 witness: the general part of `C8_projection` applied to a concrete
quote with positive `minFeeTarget`. -/
theorem C8_projection_witness :
    toPaymentInformation envAllow.toSymbol (some eur)
        (some { quote95 with minFeeTarget := 1 }) =
      some { estimatedAmount := "≈ 95 EUR (incl. DFX fees)", fee := "2 %",
             minFee := some "1E", paymentRequest := "pay:xyz" } ∧
    Sell.minFeeTarget { quote95 with minFeeTarget := 1 } > 0 :=
  ⟨by decide,
    C8_projection.2 envAllow.toSymbol (some eur) { quote95 with minFeeTarget := 1 }
      { estimatedAmount := "≈ 95 EUR (incl. DFX fees)", fee := "2 %",
        minFee := some "1E", paymentRequest := "pay:xyz" }
      (by decide) (by decide)⟩

/-- C2: on a successful quote response for validated data, if the quote's
`minVolume` exceeds the requested amount then the payment information is
discarded and the amount-level error is set to "Entered amount is below
minimum deposit of " followed by the formatted minimum and the asset name;
otherwise that error is cleared. -/
theorem C2_minDeposit (env : Env) (s : ScreenState) (sell : Sell) (vd : FormData) (amt : ℚ)
    (hvd : validateData (some s.form) = some vd)
    (hamt : jsNumberOpt vd.amount = some amt) :
    (sell.minVolume > amt →
      (quoteRefresh env (.ok sell) s).paymentInfo = none ∧
      (quoteRefresh env (.ok sell) s).customAmountError =
        some ("Entered amount is below minimum deposit of "
          ++ formatAmountCrypto sell.minVolume ++ " "
          ++ ((vd.asset.map Asset.name).getD ""))) ∧
    (¬ sell.minVolume > amt →
      (quoteRefresh env (.ok sell) s).customAmountError = none) := by
  unfold quoteRefresh
  rw [hvd]
  simp only [hamt, Option.getD_some]
  constructor
  · intro hgt
    simp [checkForMinDeposit, hgt, toPaymentInformation]
  · intro hle
    simp [checkForMinDeposit, hle]

/-- C3 counterexample: with an eligibility check that returns false (also
on the NaN it receives for a discarded quote), entering amount 100 against
a quote with minimum 200 discards the quote, yet the KYC flag is
re-evaluated and flips from false to true — the chain runs
`setKycRequired(dataValid && !isAllowedToSell(Number(value?.estimatedAmount)))`
even when `checkForMinDeposit` returned `undefined`. -/
theorem C3_counterexample :
    (run envDeny (initState (some btc)) fillTrace).kycRequired = false ∧
    (run envDeny (initState (some btc))
        (fillTrace ++ [.debounce (.ok quoteHighMin)])).paymentInfo = none ∧
    (run envDeny (initState (some btc))
        (fillTrace ++ [.debounce (.ok quoteHighMin)])).kycRequired = true := by
  decide

/-- C3 amended: on every successful quote response for validated data, the
KYC flag is re-evaluated: it becomes the negation of the eligibility check
applied to the surviving quote's estimated amount, or applied to
NaN/undefined when the minimum-deposit check discarded the quote. -/
theorem C3_kycEvaluation (env : Env) (s : ScreenState) (sell : Sell) (vd : FormData) (amt : ℚ)
    (hvd : validateData (some s.form) = some vd)
    (hamt : jsNumberOpt vd.amount = some amt) :
    (quoteRefresh env (.ok sell) s).kycRequired =
      !env.isAllowedToSell
        (if sell.minVolume > amt then none else some sell.estimatedAmount) := by
  unfold quoteRefresh
  rw [hvd]
  simp only [hamt, Option.getD_some]
  by_cases hgt : sell.minVolume > amt
  · simp [checkForMinDeposit, hgt]
  · simp [checkForMinDeposit, hgt]

/-- C3 witness: `C3_kycEvaluation` at the filled form with the discarded
high-minimum quote under the always-deny eligibility check. -/
theorem C3_kycEvaluation_witness :
    validateData (some filledState.form) = some formFull ∧
    jsNumberOpt formFull.amount = some 100 ∧
    (quoteRefresh envDeny (.ok quoteHighMin) filledState).kycRequired =
      !envDeny.isAllowedToSell
        (if quoteHighMin.minVolume > 100 then none else some quoteHighMin.estimatedAmount) :=
  ⟨by decide, by decide,
    C3_kycEvaluation envDeny filledState quoteHighMin formFull 100 (by decide) (by decide)⟩

/-- C4 counterexample: after a first successful quote stored payment
information, a second request failing with (400, "Ident data incomplete")
sets the KYC flag but leaves the stale payment information present — the
claim's "PaymentInformation is absent" fails because the catch branch never
clears it. -/
theorem C4_counterexample :
    (run envAllow (initState (some btc))
        (fillTrace ++ [.debounce (.ok quote95),
          .debounce (.err 400 "Ident data incomplete")])).kycRequired = true ∧
    (run envAllow (initState (some btc))
        (fillTrace ++ [.debounce (.ok quote95),
          .debounce (.err 400 "Ident data incomplete")])).paymentInfo ≠ none := by
  decide

/-- C4 amended: when the quote request for validated data fails with status
400 and message "Ident data incomplete", the KYC flag is set and every
other cell — in particular the stored payment information and the
amount-level error — keeps its previous value (the loading flag is cleared,
and the debounced-snapshot bookkeeping of the trigger is updated); on every
other failure only the loading flag (and that bookkeeping) changes. -/
theorem C4_errorHandling (env : Env) (s : ScreenState) (code : Nat) (msg : String)
    (vd : FormData) (hvd : validateData (some s.form) = some vd) :
    ((code = 400 ∧ msg = "Ident data incomplete") →
      quoteRefresh env (.err code msg) s =
        { s with kycRequired := true, isLoading := false, debounced := some s.form }) ∧
    (¬ (code = 400 ∧ msg = "Ident data incomplete") →
      quoteRefresh env (.err code msg) s =
        { s with isLoading := false, debounced := some s.form }) := by
  unfold quoteRefresh
  rw [hvd]
  constructor
  · rintro ⟨h1, h2⟩
    subst h1
    subst h2
    simp
  · intro h
    have hb : (code == 400 && msg == "Ident data incomplete") = false := by
      rw [Bool.and_eq_false_iff]
      by_cases hc : code = 400
      · subst hc
        refine Or.inr ?_
        simp only [beq_eq_false_iff_ne, ne_eq]
        intro hmsg
        exact h ⟨rfl, hmsg⟩
      · refine Or.inl ?_
        simp only [beq_eq_false_iff_ne, ne_eq]
        exact hc
    simp [hb]

/-- C4 witness: `C4_errorHandling` at the filled form for the recognised
error pair. -/
theorem C4_errorHandling_witness :
    validateData (some filledState.form) = some formFull ∧
    (((400 : Nat) = 400 ∧ "Ident data incomplete" = "Ident data incomplete") →
      quoteRefresh envAllow (.err 400 "Ident data incomplete") filledState =
        { filledState with
          kycRequired := true
          isLoading := false
          debounced := some filledState.form }) ∧
    (¬ ((400 : Nat) = 400 ∧ "Ident data incomplete" = "Ident data incomplete") →
      quoteRefresh envAllow (.err 400 "Ident data incomplete") filledState =
        { filledState with isLoading := false, debounced := some filledState.form }) :=
  ⟨by decide,
    (C4_errorHandling envAllow filledState 400 "Ident data incomplete" formFull
      (by decide)).1,
    (C4_errorHandling envAllow filledState 400 "Ident data incomplete" formFull
      (by decide)).2⟩

/-- C2 witness: `C2_minDeposit` at the filled form with the high-minimum
quote of the spec's scenario (minimum 200, amount 100). -/
theorem C2_minDeposit_witness :
    validateData (some filledState.form) = some formFull ∧
    jsNumberOpt formFull.amount = some 100 ∧
    ((quoteHighMin.minVolume > 100 →
      (quoteRefresh envAllow (.ok quoteHighMin) filledState).paymentInfo = none ∧
      (quoteRefresh envAllow (.ok quoteHighMin) filledState).customAmountError =
        some ("Entered amount is below minimum deposit of "
          ++ formatAmountCrypto quoteHighMin.minVolume ++ " "
          ++ ((formFull.asset.map Asset.name).getD ""))) ∧
    (¬ quoteHighMin.minVolume > 100 →
      (quoteRefresh envAllow (.ok quoteHighMin) filledState).customAmountError = none)) :=
  ⟨by decide, by decide,
    C2_minDeposit envAllow filledState quoteHighMin formFull 100 (by decide) (by decide)⟩

/-- C5: when any of the `handleNext` preconditions fails — no validated
debounced data, falsy amount or missing asset in it, no wallet address, or
no payment information — the submit handler returns without modifying any
state and without calling the account-update or payment-send capability. -/
theorem C5_handleNext_noop (env : Env) (s : ScreenState) (u k : Bool)
    (h : validateData s.debounced = none ∨
      (∃ vd, validateData s.debounced = some vd ∧
        (strTruthy vd.amount = false ∨ vd.asset = none)) ∨
      strTruthy env.address = false ∨ s.paymentInfo = none) :
    handleNext env u k s = (s, []) := by
  unfold handleNext
  cases hval : validateData s.debounced with
  | none => rfl
  | some vd =>
    by_cases ham : strTruthy vd.amount = true
    · by_cases has : vd.asset.isNone = true
      · simp [ham, has]
      · by_cases had : strTruthy env.address = true
        · cases hpi : s.paymentInfo with
          | none => simp [ham, has, had, hpi]
          | some pinfo =>
            exfalso
            rcases h with h | ⟨vd2, hvd2, hbad⟩ | h | h
            · rw [hval] at h
              exact Option.noConfusion h
            · rw [hval] at hvd2
              injection hvd2 with he
              subst he
              rcases hbad with hb | hb
              · rw [ham] at hb
                exact Bool.noConfusion hb
              · rw [hb] at has
                exact has rfl
            · rw [had] at h
              exact Bool.noConfusion h
            · rw [hpi] at h
              exact Option.noConfusion h
        · simp [ham, has, had]
    · simp [ham]

/-- C5 witness: `C5_handleNext_noop` at the mount state, whose debounced
snapshot is still absent. -/
theorem C5_handleNext_noop_witness :
    validateData (initState none).debounced = none ∧
    handleNext envAllow true true (initState none) = (initState none, []) :=
  ⟨rfl, C5_handleNext_noop envAllow (initState none) true true (Or.inl rfl)⟩

/-- C6: on the submission path with all preconditions satisfied and a
successful account update, resolution of the payment send sets the
completed flag, its settling (either way) clears the completing flag, and a
send failure leaves the screen with both flags false. -/
theorem C6_sendSettle (env : Env) (s : ScreenState) (vd : FormData)
    (pinfo : PaymentInformation)
    (hvd : validateData s.debounced = some vd)
    (ham : strTruthy vd.amount = true)
    (has : vd.asset.isNone = false)
    (had : strTruthy env.address = true)
    (hpi : s.paymentInfo = some pinfo)
    (hic : s.isCompleted = false) :
    (handleNext env true true s).1.isCompleted = true ∧
    (∀ k : Bool, (handleNext env true k s).1.isCompleting = false) ∧
    (handleNext env true false s).1.isCompleted = false := by
  unfold handleNext
  rw [hvd, hpi]
  refine ⟨?_, ?_, ?_⟩
  · simp [ham, has, had]
  · intro k
    cases k <;> simp [ham, has, had]
  · simp [ham, has, had, hic]

/-- C6 witness: `C6_sendSettle` at the ready state, with the universally
quantified send outcome instantiated at both values. -/
theorem C6_sendSettle_witness :
    validateData readyState.debounced = some formFull ∧
    strTruthy formFull.amount = true ∧
    formFull.asset.isNone = false ∧
    strTruthy envAllow.address = true ∧
    readyState.paymentInfo = some piFull ∧
    readyState.isCompleted = false ∧
    (handleNext envAllow true true readyState).1.isCompleted = true ∧
    (handleNext envAllow true true readyState).1.isCompleting = false ∧
    (handleNext envAllow true false readyState).1.isCompleting = false ∧
    (handleNext envAllow true false readyState).1.isCompleted = false :=
  ⟨by decide, by decide, by decide, by decide, by decide, by decide,
    (C6_sendSettle envAllow readyState formFull piFull (by decide) (by decide)
      (by decide) (by decide) (by decide) (by decide)).1,
    (C6_sendSettle envAllow readyState formFull piFull (by decide) (by decide)
      (by decide) (by decide) (by decide) (by decide)).2.1 true,
    (C6_sendSettle envAllow readyState formFull piFull (by decide) (by decide)
      (by decide) (by decide) (by decide) (by decide)).2.1 false,
    (C6_sendSettle envAllow readyState formFull piFull (by decide) (by decide)
      (by decide) (by decide) (by decide) (by decide)).2.2⟩

/-- C9: when the preconditions hold but the awaited account update rejects,
the async handler aborts: the payment send is never invoked, the completed
flag stays false, and the completing flag remains true. -/
theorem C9_updateAccountReject (env : Env) (s : ScreenState) (vd : FormData)
    (pinfo : PaymentInformation) (k : Bool)
    (hvd : validateData s.debounced = some vd)
    (ham : strTruthy vd.amount = true)
    (has : vd.asset.isNone = false)
    (had : strTruthy env.address = true)
    (hpi : s.paymentInfo = some pinfo)
    (hic : s.isCompleted = false) :
    (handleNext env false k s).1.isCompleting = true ∧
    (handleNext env false k s).1.isCompleted = false ∧
    SubmitAction.paySend ∉ (handleNext env false k s).2 := by
  unfold handleNext
  rw [hvd, hpi]
  simp [ham, has, had, hic]

/-- C9 witness: `C9_updateAccountReject` at the ready state. -/
theorem C9_updateAccountReject_witness :
    validateData readyState.debounced = some formFull ∧
    strTruthy formFull.amount = true ∧
    formFull.asset.isNone = false ∧
    strTruthy envAllow.address = true ∧
    readyState.paymentInfo = some piFull ∧
    readyState.isCompleted = false ∧
    ((handleNext envAllow false true readyState).1.isCompleting = true ∧
      (handleNext envAllow false true readyState).1.isCompleted = false ∧
      SubmitAction.paySend ∉ (handleNext envAllow false true readyState).2) :=
  ⟨by decide, by decide, by decide, by decide, by decide, by decide,
    C9_updateAccountReject envAllow readyState formFull piFull true (by decide)
      (by decide) (by decide) (by decide) (by decide) (by decide)⟩

/-- C7 counterexample: a change of the external `asset` prop to undefined
does not overwrite the asset field (`asset && setValue('asset', asset)`
skips the write): from the mount state with asset BTC the field keeps its
old value. -/
theorem C7_counterexample :
    (step envAllow (initState (some btc)) (.assetProp none)).form.asset = some btc := by
  decide

/-- C7 amended: on an external `asset` prop change the asset field is
overwritten only when the new prop value is present (it is left unchanged
when the prop becomes undefined); the amount field is reset to the empty
string and both the completing and completed flags are cleared for every
prior state. -/
theorem C7_assetReset (env : Env) (s : ScreenState) (a : Option Asset) :
    (step env s (.assetProp a)).form.asset = (if a.isSome then a else s.form.asset) ∧
    (step env s (.assetProp a)).form.amount = some "" ∧
    (step env s (.assetProp a)).isCompleting = false ∧
    (step env s (.assetProp a)).isCompleted = false := by
  simp [step, assetEffect, amountClearEffect, strTruthy]

/-- C10: when the debounced snapshot does not validate while the amount
field is non-empty, the quote-refresh step clears only the payment
information (besides its snapshot bookkeeping): the amount-level error and
the KYC flag keep their previous values; they are cleared by the amount
effect exactly when the amount field becomes empty. -/
theorem C10_invalidSnapshot_frame (env : Env) (outcome : FetchOutcome) (s : ScreenState)
    (hne : strTruthy s.form.amount = true)
    (hinv : validateData (some s.form) = none) :
    quoteRefresh env outcome s = { s with paymentInfo := none, debounced := some s.form } ∧
    (step env s (.setAmount "")).customAmountError = none ∧
    (step env s (.setAmount "")).kycRequired = false ∧
    ∀ v : String, strTruthy (some v) = true →
      (step env s (.setAmount v)).customAmountError = s.customAmountError ∧
      (step env s (.setAmount v)).kycRequired = s.kycRequired := by
  refine ⟨?_, ?_, ?_, ?_⟩
  · unfold quoteRefresh
    rw [hinv]
  · simp [step, amountClearEffect, strTruthy]
  · simp [step, amountClearEffect, strTruthy]
  · intro v hv
    constructor
    · simp [step, amountClearEffect, hv]
    · simp [step, amountClearEffect, hv]

/-- C10 witness: `C10_invalidSnapshot_frame` at a state whose currency was
cleared while amount 100 is still entered, with the trailing universal
instantiated at the amount string "42". -/
theorem C10_invalidSnapshot_frame_witness :
    strTruthy invalidAmountState.form.amount = true ∧
    validateData (some invalidAmountState.form) = none ∧
    quoteRefresh envAllow (.ok quote95) invalidAmountState =
      { invalidAmountState with
        paymentInfo := none
        debounced := some invalidAmountState.form } ∧
    (step envAllow invalidAmountState (.setAmount "")).customAmountError = none ∧
    (step envAllow invalidAmountState (.setAmount "")).kycRequired = false ∧
    (step envAllow invalidAmountState (.setAmount "42")).customAmountError =
      invalidAmountState.customAmountError :=
  ⟨by decide, by decide,
    (C10_invalidSnapshot_frame envAllow (.ok quote95) invalidAmountState (by decide)
      (by decide)).1,
    (C10_invalidSnapshot_frame envAllow (.ok quote95) invalidAmountState (by decide)
      (by decide)).2.1,
    (C10_invalidSnapshot_frame envAllow (.ok quote95) invalidAmountState (by decide)
      (by decide)).2.2.1,
    ((C10_invalidSnapshot_frame envAllow (.ok quote95) invalidAmountState (by decide)
      (by decide)).2.2.2 "42" (by decide)).1⟩

/-- Frame property of the submit handler: it never touches the payment
information, the amount-level error, or the debounced snapshot. -/
theorem handleNext_frame (env : Env) (u k : Bool) (s : ScreenState) :
    (handleNext env u k s).1.paymentInfo = s.paymentInfo ∧
    (handleNext env u k s).1.customAmountError = s.customAmountError ∧
    (handleNext env u k s).1.debounced = s.debounced := by
  unfold handleNext
  cases hval : validateData s.debounced with
  | none => exact ⟨rfl, rfl, rfl⟩
  | some vd =>
    by_cases ham : strTruthy vd.amount = true
    · by_cases has : vd.asset.isNone = true
      · simp [ham, has]
      · by_cases had : strTruthy env.address = true
        · cases hpi : s.paymentInfo with
          | none => simp [ham, has, had, hpi]
          | some pinfo =>
            cases u <;> cases k <;> simp [ham, has, had, hpi]
        · simp [ham, has, had]
    · simp [ham]

/-- Every event step preserves `piInv`. -/
theorem piInv_step (env : Env) (e : Event) (s : ScreenState) (h : piInv s) :
    piInv (step env s e) := by
  cases e with
  | assetProp a =>
    intro hp
    have hpi : (step env s (.assetProp a)).paymentInfo = s.paymentInfo := rfl
    have hdb : (step env s (.assetProp a)).debounced = s.debounced := rfl
    have herr : (step env s (.assetProp a)).customAmountError = none := rfl
    rw [hpi] at hp
    rw [hdb, herr]
    exact ⟨(h hp).1, rfl⟩
  | setBankAccount b =>
    intro hp
    simp only [step, bankAccountEffect] at hp ⊢
    cases b with
    | none => exact h hp
    | some bb =>
      cases hc : bb.preferredCurrency with
      | none =>
        simp only [hc] at hp ⊢
        exact h hp
      | some c =>
        simp only [hc] at hp ⊢
        exact h hp
  | setCurrency c =>
    intro hp
    exact h hp
  | setAmount v =>
    intro hp
    by_cases hv : strTruthy (some v) = true
    · have h1 : step env s (.setAmount v) =
          { s with form := { s.form with amount := some v } } := by
        simp [step, amountClearEffect, hv]
      rw [h1] at hp ⊢
      exact h hp
    · have h1 : step env s (.setAmount v) =
          { s with
            form := { s.form with amount := some v }
            customAmountError := none
            kycRequired := false } := by
        simp only [step, amountClearEffect]
        rw [if_neg hv]
      rw [h1] at hp ⊢
      exact ⟨(h hp).1, rfl⟩
  | debounce outcome =>
    intro hp
    simp only [step, quoteRefresh] at hp ⊢
    cases hval : validateData (some s.form) with
    | none =>
      simp only [hval] at hp
      exact absurd rfl hp
    | some vd =>
      simp only [hval] at hp ⊢
      cases outcome with
      | ok sell =>
        by_cases hgt : sell.minVolume > (jsNumberOpt vd.amount).getD 0
        · simp only [checkForMinDeposit, hgt, if_pos, toPaymentInformation] at hp
          exact absurd rfl hp
        · simp only [checkForMinDeposit, hgt, if_neg] at hp ⊢
          refine ⟨?_, rfl⟩
          rw [hval]
          exact Option.noConfusion
      | err code msg =>
        by_cases hc : (code == 400 && msg == "Ident data incomplete") = true
        · simp only [hc, if_true] at hp ⊢
          refine ⟨?_, (h hp).2⟩
          rw [hval]
          exact Option.noConfusion
        · simp only [Bool.not_eq_true] at hc
          simp only [hc, Bool.false_eq_true, if_false] at hp ⊢
          refine ⟨?_, (h hp).2⟩
          rw [hval]
          exact Option.noConfusion
  | next u k =>
    intro hp
    simp only [step] at hp ⊢
    rw [(handleNext_frame env u k s).1] at hp
    rw [(handleNext_frame env u k s).2.1, (handleNext_frame env u k s).2.2]
    exact h hp

/-- `piInv` holds along every run from a state satisfying it. -/
theorem piInv_run (env : Env) (es : List Event) (s : ScreenState) (h : piInv s) :
    piInv (run env s es) := by
  induction es generalizing s with
  | nil => exact h
  | cons e es ih => exact ih (step env s e) (piInv_step env e s h)

/-- C1 counterexample: a reachable state violating the claimed invariant —
after filling the form and receiving a surviving quote under a failing
eligibility check, the KYC-required flag is set while the
PaymentInformation state is still present (the code only suppresses its
rendering). -/
theorem C1_counterexample :
    (run envDeny (initState (some btc))
        (fillTrace ++ [.debounce (.ok quote95)])).paymentInfo ≠ none ∧
    (run envDeny (initState (some btc))
        (fillTrace ++ [.debounce (.ok quote95)])).kycRequired = true := by
  decide

/-- C1 amended: at every point in the screen's lifetime, the
PaymentInformation state is present only when the debounced form snapshot
validates and no minimum-deposit violation is recorded; the KYC-required
flag does not constrain the stored state (it only suppresses rendering). -/
theorem C1_paymentInfo_invariant (env : Env) (a0 : Option Asset) (es : List Event)
    (h : (run env (initState a0) es).paymentInfo ≠ none) :
    validateData (run env (initState a0) es).debounced ≠ none ∧
    (run env (initState a0) es).customAmountError = none :=
  piInv_run env es (initState a0) (fun hp => absurd rfl hp) h

/-- C1 witness: `C1_paymentInfo_invariant` on the concrete trace that
stores payment information. -/
theorem C1_paymentInfo_invariant_witness :
    (run envDeny (initState (some btc))
        (fillTrace ++ [.debounce (.ok quote95)])).paymentInfo ≠ none ∧
    (validateData (run envDeny (initState (some btc))
        (fillTrace ++ [.debounce (.ok quote95)])).debounced ≠ none ∧
      (run envDeny (initState (some btc))
          (fillTrace ++ [.debounce (.ok quote95)])).customAmountError = none) :=
  ⟨by decide,
    C1_paymentInfo_invariant envDeny (some btc) (fillTrace ++ [.debounce (.ok quote95)])
      (by decide)⟩
